import Mathlib

/-!
Shallow embedding of the yerba LinkedListAllocator
(src/linked_list_allocator.rs) and verification of its specification.

Modelling conventions:
* `usize` is modelled as `Nat`; every store truncates to the low 64 bits
  (bytes are stored mod 256).  Rust test builds run with debug assertions,
  where arithmetic underflow panics, so subtraction is modelled by `subChk`,
  which returns an `Except` error exactly where debug Rust would panic.
* Memory is byte granular: `Mem := Nat → Nat` maps a byte address to a byte.
  A `usize` field is read/written little-endian over 8 bytes.
* Raw pointers are addresses (`Nat`); the address 0 is the null pointer.
  Dereferencing null and writing through a null pointer are modelled as
  `Except` errors (the program would crash there).
* The region base returned by `mmap` is page aligned (the constructor
  asserts the fixed-address mapping succeeded, which requires alignment);
  the model fixes it to the concrete page-aligned address `BASE = 4096`.
  `mmap(MAP_ANONYMOUS)` zero-fills, so fresh memory is all zero bytes.
* Loops are given explicit fuel; running out of fuel is an `Except` error,
  never a result, so every proved `.ok` result is a real terminating run.
-/

namespace Yerba

def PAGE_SIZE : Nat := 4096

/-- size_of::<Header>() : two usize fields (size, offset). -/
def HEADER_SIZE : Nat := 16

def MAX_ALIGN : Nat := 32

def USIZE_MAX : Nat := 2 ^ 64 - 1

/-- The page-aligned base address of the managed region (see header note). -/
def BASE : Nat := 4096

/-- Byte-granular memory: address to byte value. -/
abbrev Mem := Nat → Nat

/-- Store one usize (8 bytes, little-endian) at byte address `a`. -/
def writeW (m : Mem) (a v : Nat) : Mem :=
  fun x => if a ≤ x ∧ x < a + 8 then v / 256 ^ (x - a) % 256 else m x

/-- Read one usize (8 bytes, little-endian) at byte address `a`. -/
def readW (m : Mem) (a : Nat) : Nat :=
  m a + 256 * (m (a + 1) + 256 * (m (a + 2) + 256 * (m (a + 3) +
    256 * (m (a + 4) + 256 * (m (a + 5) + 256 * (m (a + 6) +
    256 * m (a + 7)))))))

/-- `ptr::write_bytes(0, n)` over `n` bytes starting at `a`. -/
def zeroBytes (m : Mem) (a n : Nat) : Mem :=
  fun x => if a ≤ x ∧ x < a + n then 0 else m x

/-- Store a single byte (used only to build concrete test states). -/
def pokeByte (m : Mem) (a v : Nat) : Mem :=
  fun x => if x = a then v % 256 else m x

/-- Checked subtraction: debug Rust panics on usize underflow. -/
def subChk (a b : Nat) : Except String Nat :=
  if b ≤ a then .ok (a - b) else .error "subtract with overflow"

/-- Allocator state: the managed memory and the page counter. -/
structure St where
  mem : Mem
  pages : Nat

/-- Header field `size` at header address `p`. -/
def sizeAt (s : St) (p : Nat) : Nat := readW s.mem p

/-- Raw packed `offset` word at header address `p`. -/
def offWordAt (s : St) (p : Nat) : Nat := readW s.mem (p + 8)

/-- HeaderPtr::get_offset: `offset & (0usize << 63)`.  The mask in the
source is `0 << (bits-1)`, which is 0, so this always evaluates to 0. -/
def get_offset (s : St) (p : Nat) : Nat :=
  offWordAt s p &&& (0 <<< 63)

/-- HeaderPtr::used: `offset.reverse_bits() & 1 == 1`, i.e. bit 63. -/
def used (s : St) (p : Nat) : Bool :=
  ((offWordAt s p >>> 63) &&& 1) == 1

/-- HeaderPtr::set_used: the two source statements
`offset &= 0 << k; offset &= (used as usize) << k` in order. -/
def set_used (s : St) (p : Nat) (b : Bool) : St :=
  let o1 := offWordAt s p &&& (0 <<< 63)
  let s1 : St := { s with mem := writeW s.mem (p + 8) o1 }
  let o2 := offWordAt s1 p &&& ((if b then 1 else 0) <<< 63)
  { s1 with mem := writeW s1.mem (p + 8) o2 }

/-- HeaderPtr::set_offset: read `used`, overwrite the word, re-apply. -/
def set_offset (s : St) (p v : Nat) : St :=
  let u := used s p
  let s1 : St := { s with mem := writeW s.mem (p + 8) v }
  set_used s1 p u

/-- HeaderPtr::set_size. -/
def set_size (s : St) (p v : Nat) : St :=
  { s with mem := writeW s.mem p v }

/-- HeaderPtr::add_size: `size += delta`. -/
def add_size (s : St) (p delta : Nat) : St :=
  set_size s p (sizeAt s p + delta)

/-- Write a whole `Header` value (raw struct write, both fields). -/
def writeHeader (s : St) (p sz off : Nat) : St :=
  { s with mem := writeW (writeW s.mem p sz) (p + 8) off }

/-- HeaderPtr::get_data: `self.add(1).byte_add(get_offset())`. -/
def get_data (s : St) (p : Nat) : Nat :=
  p + HEADER_SIZE + get_offset s p

/-- `pointer::align_offset` for a pointer of the given element stride at
address `addr`: the least `k` with `(addr + stride * k) % align = 0`, or
`usize::MAX` when no such `k` exists. -/
def alignOffset (stride addr align : Nat) : Nat :=
  match (List.range align).findIdx? (fun k => (addr + stride * k) % align == 0) with
  | some k => k
  | none => USIZE_MAX

/-- LinkedListAllocator::next_header.  Note: the advance is
`byte_add(get_offset + size)` with NO header footprint, and the bound is
`base + PAGE_SIZE` (one page) regardless of the page counter.  When the
size field is 0 the source zeroes the header (`write_bytes(0, 1)` over one
`Header`, 16 bytes) and returns null. -/
def next_header (s : St) (p : Nat) : Nat × St :=
  if sizeAt s p = 0 then
    (0, { s with mem := zeroBytes s.mem p HEADER_SIZE })
  else if get_offset s p + sizeAt s p + p > BASE + PAGE_SIZE then
    (0, s)
  else
    (p + (get_offset s p + sizeAt s p), s)

/-- LinkedListAllocator::next_header_unchecked: advance includes the
header footprint and the bound uses the page counter. -/
def next_header_unchecked (s : St) (p : Nat) : Nat :=
  if get_offset s p + sizeAt s p + p > BASE + PAGE_SIZE * s.pages then 0
  else p + (HEADER_SIZE + get_offset s p + sizeAt s p)

/-- LinkedListAllocator::last_addr: `buf + PAGE_SIZE` (one page, fixed). -/
def last_addr : Nat := BASE + PAGE_SIZE

/-- LinkedListAllocator::request_new_page: maps one zero page at
`last_addr` (always `BASE + PAGE_SIZE`) and bumps the page counter. -/
def request_new_page (s : St) : St :=
  { mem := zeroBytes s.mem (BASE + PAGE_SIZE) PAGE_SIZE, pages := s.pages + 1 }

/-- The freshly initialised one-page region: a default header
`Header(PAGE_SIZE - HEADER_SIZE, 0)` at the base, all other bytes zero. -/
def initMem : Mem :=
  writeW (writeW (fun _ => 0) BASE (PAGE_SIZE - HEADER_SIZE)) (BASE + 8) 0

def initSt : St := { mem := initMem, pages := 1 }

/-- LinkedListAllocator::find_empty_block, loop body.  `last` / `hp` are
the `last_header_ptr` / `header_ptr` cursors of the source. -/
def find_empty_block_loop (size align : Nat) (fuel : Nat) (s : St)
    (last hp : Nat) : Except String (Nat × St) :=
  match fuel with
  | 0 => .error "fuel"
  | fuel + 1 =>
    if hp = 0 then .ok (0, s)
    else if used s hp then
      let r := next_header s hp
      find_empty_block_loop size align fuel r.2 hp r.1
    else
      let ao := alignOffset 1 (hp + HEADER_SIZE) align
      if ao = USIZE_MAX then .ok (0, s)
      else
        let required := size + ao
        if sizeAt s hp ≥ required then
          .ok (hp, set_offset s hp ao)
        else if (last ≠ 0 ∧ used s last = false) ∧
            sizeAt s hp + sizeAt s last ≥ required then
          let ao2 := alignOffset HEADER_SIZE (last + HEADER_SIZE) align
          if ao2 = USIZE_MAX then .ok (0, s)
          else
            let s1 := set_offset s last ao2
            let s2 := add_size s1 last
              (sizeAt s1 hp + get_offset s1 hp + HEADER_SIZE)
            -- write_bytes(0, size_of::<Header>()) on a *mut Header zeroes
            -- size_of::<Header>() whole Headers: 256 bytes, not 16.
            let s3 : St :=
              { s2 with mem := zeroBytes s2.mem hp (HEADER_SIZE * HEADER_SIZE) }
            .ok (last, s3)
        else
          let r := next_header s hp
          if r.1 = 0 then
            let sg := request_new_page r.2
            -- Header::new(PAGE_SIZE - size_of::<Header>()*2 - ao - size, 0):
            -- each subtraction is debug checked.
            match subChk (PAGE_SIZE - HEADER_SIZE * 2) ao with
            | .error e => .error e
            | .ok n1 =>
              match subChk n1 size with
              | .error e => .error e
              | .ok newTopSize =>
                let s4 := writeHeader sg hp size ao
                let topPtr := next_header_unchecked s4 hp
                if topPtr = 0 then .error "write through null pointer"
                else
                  let s5 := writeHeader s4 topPtr newTopSize 0
                  find_empty_block_loop size align fuel s5 hp r.1
          else
            find_empty_block_loop size align fuel r.2 hp r.1

/-- LinkedListAllocator::find_empty_block. -/
def find_empty_block (fuel : Nat) (s : St) (size align : Nat) :
    Except String (Nat × St) :=
  find_empty_block_loop size align fuel s 0 BASE

/-- LinkedListAllocator::find_ptr_block, loop.  The loop condition
evaluates `block.get_data()` before the null test, so reaching the chain
end dereferences a null HeaderPtr: modelled as an error. -/
def find_ptr_block_loop (ptr : Nat) (fuel : Nat) (s : St) (block : Nat) :
    Except String (Nat × St) :=
  match fuel with
  | 0 => .error "fuel"
  | fuel + 1 =>
    if block = 0 then .error "null pointer dereference"
    else if get_data s block = ptr then .ok (block, s)
    else
      let r := next_header s block
      find_ptr_block_loop ptr fuel r.2 r.1

def find_ptr_block (fuel : Nat) (s : St) (ptr : Nat) :
    Except String (Nat × St) :=
  find_ptr_block_loop ptr fuel s BASE

/-- GlobalAlloc::alloc for LinkedListAllocator.  Returns `none` for the
null pointer and `some data` for a successful allocation. -/
def alloc (fuel : Nat) (s : St) (size align : Nat) :
    Except String (Option Nat × St) :=
  if align > MAX_ALIGN then .ok (none, s)
  else
    match find_empty_block fuel s size align with
    | .error e => .error e
    | .ok (block, s1) =>
      if block = 0 then .ok (none, s1)
      -- data_ptr is computed before mark_used and is the returned value
      else if get_data s1 block + size > last_addr then .ok (none, s1)
      else if sizeAt (set_used s1 block true) block > HEADER_SIZE + size ∧
          next_header_unchecked (set_used s1 block true) block + HEADER_SIZE <
            BASE + PAGE_SIZE then
        match subChk (sizeAt (set_used s1 block true) block)
            (HEADER_SIZE + size) with
        | .error e => .error e
        | .ok newBlockSize =>
          if next_header_unchecked (set_used s1 block true) block = 0 then
            .error "write through null pointer"
          else
            .ok (some (get_data s1 block),
              writeHeader (set_size (set_used s1 block true) block size)
                (next_header_unchecked (set_used s1 block true) block)
                newBlockSize 0)
      else .ok (some (get_data s1 block), set_used s1 block true)

/-- GlobalAlloc::dealloc: find the owning header, mark free, zero offset. -/
def dealloc (fuel : Nat) (s : St) (ptr : Nat) : Except String St :=
  match find_ptr_block fuel s ptr with
  | .error e => .error e
  | .ok (block, s1) =>
    let s2 := set_used s1 block false
    .ok (set_offset s2 block 0)

/-- GlobalAlloc::alloc_zeroed: alloc, then zero the returned span. -/
def alloc_zeroed (fuel : Nat) (s : St) (size align : Nat) :
    Except String (Option Nat × St) :=
  match alloc fuel s size align with
  | .error e => .error e
  | .ok (none, s1) => .ok (none, s1)
  | .ok (some p, s1) => .ok (some p, { s1 with mem := zeroBytes s1.mem p size })

/-- Result of one pass of the inner loop of realloc's second scan. -/
inductive InnerRes where
  | ret (p : Nat) (s : St)
  | brk (anchor : Nat) (s : St)
  | fall (s : St)

/-- realloc, forward-accumulation loop (lines 440-455).  Returns either
an early-return pointer or the final accumulator.  Note the frontier
advances by `frontier.add(1)` = 16 raw bytes, not to the next block. -/
def realloc_fwd (hp align newSize : Nat) (fuel : Nat) (s : St)
    (acc frontier : Nat) : Except String (Option Nat × Nat × St) :=
  match fuel with
  | 0 => .error "fuel"
  | fuel + 1 =>
    if acc < newSize ∧ frontier ≠ 0 then
      if used s frontier then .ok (none, acc, s)
      else
        let acc1 := acc + sizeAt s frontier + get_offset s frontier + HEADER_SIZE
        if acc1 ≥ newSize then
          let ao := alignOffset HEADER_SIZE hp align
          let s1 := set_offset s hp ao
          .ok (some (get_data s1 hp + ao), acc1, s1)
        else realloc_fwd hp align newSize fuel s acc1 (frontier + HEADER_SIZE)
    else .ok (none, acc, s)

/-- realloc, inner loop of the whole-chain scan (lines 469-486). -/
def realloc_inner (hp align newSize : Nat) (fuel : Nat) (s : St)
    (acc frontier : Nat) : Except String InnerRes :=
  match fuel with
  | 0 => .error "fuel"
  | fuel + 1 =>
    if acc < newSize ∧ frontier ≠ 0 then
      if used s frontier then
        let r := next_header s frontier
        if r.1 = 0 then .error "assertion failed"
        else .ok (.brk r.1 r.2)
      else
        let acc1 := acc + sizeAt s frontier + get_offset s frontier + HEADER_SIZE
        if acc1 ≥ newSize then
          let ao := alignOffset HEADER_SIZE hp align
          let s1 := set_offset s hp ao
          .ok (.ret (get_data s1 hp + ao) s1)
        else realloc_inner hp align newSize fuel s acc1 (frontier + HEADER_SIZE)
    else .ok (.fall s)

/-- realloc, outer anchor loop (lines 461-487).  Falling out of an inner
pass without a break never advances the anchor, so the source loops
forever there; past the loop the source references undefined variables
(`header`, `top`) and does not compile, modelled as an error. -/
def realloc_anchor (hp align newSize : Nat) (fuel : Nat) (s : St)
    (anchor : Nat) : Except String (Option Nat × St) :=
  match fuel with
  | 0 => .error "fuel"
  | fuel + 1 =>
    if anchor = 0 then .error "uncompilable code past the anchor loop"
    else if used s anchor then
      let r := next_header s anchor
      realloc_anchor hp align newSize fuel r.2 r.1
    else
      match realloc_inner hp align newSize fuel s (sizeAt s anchor) anchor with
      | .error e => .error e
      | .ok (.ret p s1) => .ok (some p, s1)
      | .ok (.brk a s1) => realloc_anchor hp align newSize fuel s1 a
      | .ok (.fall s1) => realloc_anchor hp align newSize fuel s1 anchor

/-- GlobalAlloc::realloc (the compilable part, lines 429-487). -/
def realloc (fuel : Nat) (s : St) (ptr align newSize : Nat) :
    Except String (Option Nat × St) :=
  match find_ptr_block fuel s ptr with
  | .error e => .error e
  | .ok (hp, s1) =>
    let s2 := set_used s1 hp false
    let r := next_header s2 hp
    match realloc_fwd hp align newSize fuel r.2 (sizeAt r.2 hp) r.1 with
    | .error e => .error e
    | .ok (some p, _, s3) => .ok (some p, s3)
    | .ok (none, acc, s3) =>
      if acc > newSize then .ok (some ptr, s3)
      else realloc_anchor hp align newSize fuel s3 BASE

/-- The block navigator as the specification words it (for comparison
with `next_header`): the candidate address is header address + header
footprint + masked padding + size, and the result is the null sentinel
exactly when that address falls at or beyond the end of all currently
mapped pages. -/
def nextHeaderSpec (s : St) (p : Nat) : Nat :=
  if p + HEADER_SIZE + offWordAt s p % 2 ^ 63 + sizeAt s p ≥
      BASE + PAGE_SIZE * s.pages then 0
  else p + HEADER_SIZE + offWordAt s p % 2 ^ 63 + sizeAt s p

/-- Walk the header chain with the navigator of the code, collecting the
visited header addresses and the total of footprint + masked padding +
size over them (the tiling sum of the specification). -/
def walkSum (s : St) (p : Nat) : Nat → List Nat × Nat
  | 0 => ([], 0)
  | fuel + 1 =>
    if p = 0 then ([], 0)
    else
      let c := HEADER_SIZE + get_offset s p + sizeAt s p
      let r := next_header s p
      let w := walkSum r.2 r.1 fuel
      (p :: w.1, c + w.2)

/-- Test state for the merge branch: a free header of size 24 at the
base, a free header of size 16 at BASE + 24 (where the chain walk of the
code lands), and a marker byte 7 at BASE + 100 inside the span that the
merge branch wipes. -/
def sC4 : St :=
  { mem := pokeByte (writeW (writeW (writeW (writeW (fun _ => 0)
      BASE 24) (BASE + 8) 0) (BASE + 24) 16) (BASE + 32) 0) (BASE + 100) 7,
    pages := 1 }

/-- Test state for realloc: block A with size 16 at the base and a free
header of size 16 at BASE + 32, the layout the specification scenario
describes (A of 16 bytes, then freed B of 16 bytes). -/
def sC7 : St :=
  { mem := writeW (writeW (writeW (writeW (fun _ => 0)
      BASE 16) (BASE + 8) 0) (BASE + 32) 16) (BASE + 40) 0,
    pages := 1 }

/-- Test state for navigator purity: a header with size 0 and a nonzero
raw offset word. -/
def sC9 : St := { mem := writeW (fun _ => 0) (BASE + 8) 5, pages := 1 }

/-! ### Memory-store lemmas -/

theorem writeW_writeW_same (m : Mem) (a v w : Nat) :
    writeW (writeW m a v) a w = writeW m a w := by
  funext x
  simp only [writeW]
  split_ifs <;> rfl

theorem readW_writeW_same (m : Mem) (a v : Nat) :
    readW (writeW m a v) a = v % 2 ^ 64 := by
  simp only [readW, writeW]
  rw [if_pos (by omega), if_pos (by omega), if_pos (by omega),
    if_pos (by omega), if_pos (by omega), if_pos (by omega),
    if_pos (by omega), if_pos (by omega)]
  simp only [Nat.add_sub_cancel_left, Nat.sub_self]
  norm_num
  omega

theorem writeW_zero_eq_self (m : Mem) (a : Nat)
    (h : ∀ i, i < 8 → m (a + i) = 0) : writeW m a 0 = m := by
  funext x
  simp only [writeW]
  split_ifs with hx
  · rw [Nat.zero_div, Nat.zero_mod]
    have hx2 : a + (x - a) = x := by omega
    rw [← hx2, h (x - a) (by omega)]
  · rfl

/-! ### Accessor-collapse lemmas (consequences of the codec bit bugs) -/

theorem get_offset_eq_zero (s : St) (p : Nat) : get_offset s p = 0 := by
  simp [get_offset, Nat.zero_shiftLeft, Nat.and_zero]

theorem set_used_eq (s : St) (p : Nat) (b : Bool) :
    set_used s p b = { mem := writeW s.mem (p + 8) 0, pages := s.pages } := by
  unfold set_used
  simp only [Nat.zero_shiftLeft, Nat.and_zero]
  have h1 : offWordAt { mem := writeW s.mem (p + 8) 0, pages := s.pages : St } p
      = 0 := by
    simp [offWordAt, readW_writeW_same]
  simp only [h1, Nat.zero_and, writeW_writeW_same]

theorem set_offset_eq (s : St) (p v : Nat) :
    set_offset s p v = { mem := writeW s.mem (p + 8) 0, pages := s.pages } := by
  unfold set_offset
  rw [set_used_eq]
  simp only [writeW_writeW_same]

theorem writeW_initMem_off_zero : writeW initMem (BASE + 8) 0 = initMem :=
  writeW_zero_eq_self initMem (BASE + 8) (by decide)

theorem set_offset_initSt (v : Nat) : set_offset initSt BASE v = initSt := by
  rw [set_offset_eq]
  show ({ mem := writeW initMem (BASE + 8) 0, pages := 1 } : St) = initSt
  rw [writeW_initMem_off_zero]
  rfl

theorem set_used_initSt (b : Bool) : set_used initSt BASE b = initSt := by
  rw [set_used_eq]
  show ({ mem := writeW initMem (BASE + 8) 0, pages := 1 } : St) = initSt
  rw [writeW_initMem_off_zero]
  rfl

/-! ### Runs from the fresh state -/

theorem find_empty_block_fresh (F size align : Nat)
    (hle : size + alignOffset 1 (BASE + HEADER_SIZE) align ≤
      PAGE_SIZE - HEADER_SIZE) :
    find_empty_block (F + 1) initSt size align = .ok (BASE, initSt) := by
  have hao : ¬ alignOffset 1 (BASE + HEADER_SIZE) align = USIZE_MAX := by
    have h2 : (USIZE_MAX : Nat) = 2 ^ 64 - 1 := rfl
    have h3 : (PAGE_SIZE : Nat) = 4096 := rfl
    have h4 : (HEADER_SIZE : Nat) = 16 := rfl
    omega
  have hsz : sizeAt initSt BASE = PAGE_SIZE - HEADER_SIZE := by decide
  unfold find_empty_block find_empty_block_loop
  rw [if_neg (by decide : ¬ (BASE = 0))]
  have hu : used initSt BASE = false := by decide
  rw [hu]
  simp only [Bool.false_eq_true, if_false]
  rw [if_neg hao, if_pos (by omega : sizeAt initSt BASE ≥
    size + alignOffset 1 (BASE + HEADER_SIZE) align)]
  rw [set_offset_initSt]

theorem alloc_fresh (F size align : Nat) (hal : align ≤ MAX_ALIGN)
    (hle : size + alignOffset 1 (BASE + HEADER_SIZE) align ≤
      PAGE_SIZE - HEADER_SIZE) :
    alloc (F + 1) initSt size align = .ok (some (BASE + HEADER_SIZE), initSt) := by
  have hsize : size ≤ PAGE_SIZE - HEADER_SIZE := le_trans (Nat.le_add_right _ _) hle
  unfold alloc
  rw [if_neg (by omega : ¬ align > MAX_ALIGN), find_empty_block_fresh F size align hle]
  have hdata : get_data initSt BASE = BASE + HEADER_SIZE := by
    simp [get_data, get_offset_eq_zero]
  simp only [hdata]
  rw [if_neg (by decide : ¬ (BASE = 0))]
  rw [if_neg (by
    show ¬ BASE + HEADER_SIZE + size > last_addr
    have h1 : (last_addr : Nat) = 8192 := rfl
    have h2 : (BASE : Nat) = 4096 := rfl
    have h3 : (HEADER_SIZE : Nat) = 16 := rfl
    have h4 : (PAGE_SIZE : Nat) = 4096 := rfl
    omega)]
  rw [set_used_initSt]
  have hnext : next_header_unchecked initSt BASE = BASE + PAGE_SIZE := by decide
  rw [hnext]
  rw [if_neg (by
    intro hcon
    have h2 := hcon.2
    have h3 : (BASE : Nat) = 4096 := rfl
    have h4 : (PAGE_SIZE : Nat) = 4096 := rfl
    have h5 : (HEADER_SIZE : Nat) = 16 := rfl
    omega)]

theorem dealloc_fresh (F : Nat) :
    dealloc (F + 1) initSt (BASE + HEADER_SIZE) = .ok initSt := by
  unfold dealloc find_ptr_block find_ptr_block_loop
  rw [if_neg (by decide : ¬ (BASE = 0))]
  rw [if_pos (by decide : get_data initSt BASE = BASE + HEADER_SIZE)]
  show Except.ok (set_offset (set_used initSt BASE false) BASE 0) = Except.ok initSt
  rw [set_used_initSt, set_offset_initSt]

theorem find_ptr_block_loop_succ (ptr fuel : Nat) (s : St) (block : Nat) :
    find_ptr_block_loop ptr (fuel + 1) s block =
      if block = 0 then .error "null pointer dereference"
      else if get_data s block = ptr then .ok (block, s)
      else find_ptr_block_loop ptr fuel (next_header s block).2
        (next_header s block).1 := rfl

/-! ### The claims -/

/-- Claim C1.  The tiling invariant fails already at the freshly
initialised one-page state, before any call: walking the header chain of
the code from the first header visits the addresses BASE and BASE + 4080
(the navigator omits the header footprint, so the second visited address
lies strictly inside the span governed by the first header — an overlap),
and the sum of footprint + masked padding + size over the visited headers
is PAGE_SIZE + HEADER_SIZE = 4112, not high-water mark minus base =
PAGE_SIZE = 4096. -/
theorem c1_tiling_fails_at_init :
    (walkSum initSt BASE 8).1 = [BASE, BASE + 4080] ∧
    (walkSum initSt BASE 8).2 = PAGE_SIZE + HEADER_SIZE ∧
    BASE + PAGE_SIZE * initSt.pages - BASE = PAGE_SIZE ∧
    PAGE_SIZE + HEADER_SIZE ≠ PAGE_SIZE ∧
    BASE + 4080 < BASE + (HEADER_SIZE + get_offset initSt BASE +
      sizeAt initSt BASE) := by decide

/-- Claim C2.  The header codec accessor pairs are broken: after
`set_offset(5)` the call `get_offset()` returns 0, not 5 (the stored word
itself is 0, because `set_used` masks with `0 << 63`, wiping the word);
and after `mark_used()` (`set_used(true)`) the call `used()` still
returns false, because the used bit can never be set. -/
theorem c2_codec_broken :
    get_offset (set_offset initSt BASE 5) BASE = 0 ∧ (5 : Nat) ≠ 0 ∧
    offWordAt (set_offset initSt BASE 5) BASE = 0 ∧
    used (set_used initSt BASE true) BASE = false ∧
    used initSt BASE = false := by decide

/-- Claim C3.  On the fresh header at the base, the navigator of the code
returns the non-null address BASE + 4080 = BASE + masked offset + size —
it omits the header footprint — while the formula of the specification
(address + footprint + masked offset + size, null at or beyond the end of
the mapped pages) yields the null sentinel. -/
theorem c3_next_header_mismatch :
    (next_header initSt BASE).1 = BASE + 4080 ∧
    nextHeaderSpec initSt BASE = 0 ∧
    BASE + 4080 ≠ 0 ∧
    (next_header initSt BASE).1 ≠ nextHeaderSpec initSt BASE := by decide

/-- Claim C4.  In the merge branch of find_empty_block on `sC4` with
size 9 and align 32, the search does return the preceding free header
`last` = BASE, but: the padding needed to 32-align the data start of
`last` is 16 bytes, yet the offset word of `last` afterwards is 0 (the
value the code computed was 1 — `align_offset` on a `*mut Header` counts
16-byte strides — and even that was wiped by the set_offset codec bug);
and the zeroing of the absorbed header wipes 256 bytes, not the 16-byte
footprint, destroying the marker byte at BASE + 100. -/
theorem c4_merge_divergence :
    (find_empty_block 4 sC4 9 32).toOption.map
      (fun r => (r.1, offWordAt r.2 BASE, sizeAt r.2 BASE, r.2.mem (BASE + 100)))
      = some (BASE, 0, 56, 0) ∧
    sC4.mem (BASE + 100) = 7 ∧
    alignOffset 1 (BASE + HEADER_SIZE) 32 = 16 ∧
    alignOffset HEADER_SIZE (BASE + HEADER_SIZE) 32 = 1 := by decide

/-- Claim C5.  On the fresh one-page region, alloc of 5000 bytes (the
size of the repository's own `overflow` test, greater than PAGE_SIZE -
HEADER_SIZE) does not succeed after one growth: the growth path computes
`PAGE_SIZE - 2 * HEADER_SIZE - padding - size`, which underflows usize
and panics in a debug build. -/
theorem c5_growth_alloc_panics :
    alloc 8 initSt 5000 1 = .error "subtract with overflow" ∧
    5000 > PAGE_SIZE - HEADER_SIZE := ⟨rfl, by decide⟩

/-- Claim C6.  Round trip: for every size and align within the supported
bounds (align a supported power of two up to MAX_ALIGN, size plus the
alignment padding at the first data address at most PAGE_SIZE -
HEADER_SIZE), alloc from the fresh state returns the data address
BASE + HEADER_SIZE, dealloc of that pointer restores the state, and a
second identical alloc returns the same data address, with the page
counter staying at 1 throughout (no growth). -/
theorem c6_round_trip (F size align : Nat)
    (hal : align ∈ ([1, 2, 4, 8, 16, 32] : List Nat))
    (hsz : size + alignOffset 1 (BASE + HEADER_SIZE) align ≤
      PAGE_SIZE - HEADER_SIZE) :
    ∃ s1 s2 s3,
      alloc (F + 1) initSt size align = .ok (some (BASE + HEADER_SIZE), s1) ∧
      dealloc (F + 1) s1 (BASE + HEADER_SIZE) = .ok s2 ∧
      alloc (F + 1) s2 size align = .ok (some (BASE + HEADER_SIZE), s3) ∧
      s1.pages = 1 ∧ s2.pages = 1 ∧ s3.pages = 1 := by
  have hal32 : align ≤ MAX_ALIGN := by
    simp only [List.mem_cons, List.mem_singleton, List.not_mem_nil, or_false] at hal
    rcases hal with rfl | rfl | rfl | rfl | rfl | rfl <;> decide
  exact ⟨initSt, initSt, initSt, alloc_fresh F size align hal32 hsz,
    dealloc_fresh F, alloc_fresh F size align hal32 hsz, rfl, rfl, rfl⟩

/-- Witness for C6 at size 16, align 8. -/
theorem c6_round_trip_witness :
    ∃ s1 s2 s3,
      alloc 1 initSt 16 8 = .ok (some (BASE + HEADER_SIZE), s1) ∧
      dealloc 1 s1 (BASE + HEADER_SIZE) = .ok s2 ∧
      alloc 1 s2 16 8 = .ok (some (BASE + HEADER_SIZE), s3) ∧
      s1.pages = 1 ∧ s2.pages = 1 ∧ s3.pages = 1 :=
  c6_round_trip 0 16 8 (by decide) (by decide)

/-- Claim C7.  On the layout of the specification scenario (block A of 16
bytes at the base, a free 16-byte block behind it), realloc of the data
pointer of A to 32 bytes does return the same data pointer through the
forward-accumulation path, but it never adjusts the owning header: the
size field of A stays 16 (smaller than the requested 32), so the
extension is not recorded in place.  (The forward frontier also advances
by 16 raw bytes into the payload of A rather than to the next header, and
the fallback tail of realloc references the undefined variables `header`
and `top`, so the source file does not even compile.) -/
theorem c7_realloc_divergence :
    (realloc 6 sC7 (BASE + HEADER_SIZE) 1 32).toOption.map
      (fun r => (r.1, sizeAt r.2 BASE)) =
      some (some (BASE + HEADER_SIZE), 16) ∧
    (16 : Nat) < 32 := by decide

/-- Counterexample for claim C8.  After alloc of 16 bytes from the fresh
state (data address BASE + HEADER_SIZE) and a first dealloc, the state is
again `initSt`, so the pointer is already freed; the second equation —
dealloc of that same pointer from `initSt` — is therefore exactly the
double free, and it returns `.ok` (it re-marks the header free and
resets the offset), not a trap. -/
theorem c8_double_free_not_trapped :
    alloc 1 initSt 16 1 = .ok (some (BASE + HEADER_SIZE), initSt) ∧
    dealloc 1 initSt (BASE + HEADER_SIZE) = .ok initSt :=
  ⟨alloc_fresh 0 16 1 (by decide) (by decide), dealloc_fresh 0⟩

/-- Claim C8, amended.  On the fresh state, dealloc of a pointer that is
not the computed data address of a visited header (BASE + HEADER_SIZE,
or BASE + PAGE_SIZE for the phantom zero-size header the broken navigator
visits) dereferences a null HeaderPtr — a crash, with no header value
changed — while dealloc of the data address of an already-free header is
not detected: it completes normally, silently re-marking the header
free. -/
theorem c8_dealloc_amended (p : Nat) (h1 : p ≠ BASE + HEADER_SIZE)
    (h2 : p ≠ BASE + PAGE_SIZE) :
    dealloc 3 initSt p = .error "null pointer dereference" ∧
    dealloc 3 initSt (BASE + HEADER_SIZE) = .ok initSt := by
  refine ⟨?_, dealloc_fresh 2⟩
  have hn1 : next_header initSt BASE = (BASE + 4080, initSt) := rfl
  have hrun : find_ptr_block_loop p 3 initSt BASE =
      .error "null pointer dereference" := by
    show find_ptr_block_loop p (2 + 1) initSt BASE = _
    rw [find_ptr_block_loop_succ]
    rw [if_neg (by decide : ¬ (BASE = 0))]
    rw [(by decide : get_data initSt BASE = BASE + HEADER_SIZE)]
    rw [if_neg (fun h => h1 h.symm), hn1]
    show find_ptr_block_loop p (1 + 1) initSt (BASE + 4080) = _
    rw [find_ptr_block_loop_succ]
    rw [if_neg (by decide : ¬ (BASE + 4080 = 0))]
    rw [(by decide : get_data initSt (BASE + 4080) = BASE + PAGE_SIZE)]
    rw [if_neg (fun h => h2 h.symm)]
    show find_ptr_block_loop p (0 + 1) (next_header initSt (BASE + 4080)).2 0 = _
    rw [find_ptr_block_loop_succ]
    rw [if_pos rfl]
  unfold dealloc find_ptr_block
  rw [hrun]

/-- Witness for the amended C8 at the foreign pointer 5. -/
theorem c8_dealloc_amended_witness :
    dealloc 3 initSt 5 = .error "null pointer dereference" ∧
    dealloc 3 initSt (BASE + HEADER_SIZE) = .ok initSt :=
  c8_dealloc_amended 5 (by decide) (by decide)

/-- Counterexample for claim C9: on a header whose size field is 0 and
whose raw offset word is 5, next_header returns the null sentinel and
zeroes the header, changing the offset word from 5 to 0 — the navigator
does mutate state. -/
theorem c9_next_header_mutates :
    offWordAt sC9 BASE = 5 ∧
    (next_header sC9 BASE).1 = 0 ∧
    offWordAt (next_header sC9 BASE).2 BASE = 0 := by decide

/-- Claim C9, amended: next_header leaves the state unchanged whenever
the size field of the header is nonzero (in both the header and the
null-sentinel result cases); when the size field is 0 it returns the null
sentinel and zeroes the 16 bytes of the header. -/
theorem c9_navigator_frame (s : St) (p : Nat) :
    (sizeAt s p ≠ 0 → (next_header s p).2 = s) ∧
    (sizeAt s p = 0 → (next_header s p).1 = 0 ∧
      (next_header s p).2 =
        { mem := zeroBytes s.mem p HEADER_SIZE, pages := s.pages }) := by
  constructor
  · intro h
    unfold next_header
    rw [if_neg h]
    split <;> rfl
  · intro h
    unfold next_header
    rw [if_pos h]
    exact ⟨rfl, rfl⟩

/-- Witness for the amended C9 on the fresh base header (size 4080). -/
theorem c9_navigator_frame_witness : (next_header initSt BASE).2 = initSt :=
  (c9_navigator_frame initSt BASE).1 (by decide)

/-- Claim C10.  Every successful alloc result lies entirely within the
first mapped page: if alloc returns the data pointer `p` for a request of
`size` bytes, then p + size ≤ BASE + PAGE_SIZE, whatever the state (and
its page counter) was — the guard compares against last_addr, which is
hardcoded to one page. -/
theorem c10_alloc_first_page_bound (fuel : Nat) (s : St) (size align p : Nat)
    (s2 : St) (h : alloc fuel s size align = .ok (some p, s2)) :
    p + size ≤ BASE + PAGE_SIZE := by
  unfold alloc at h
  split at h
  · cases h
  split at h
  · cases h
  split at h
  · cases h
  split at h
  · cases h
  rename_i hguard
  split at h
  · split at h
    · cases h
    split at h
    · cases h
    simp only [Except.ok.injEq, Prod.mk.injEq, Option.some.injEq] at h
    obtain ⟨rfl, rfl⟩ := h
    unfold last_addr at hguard
    omega
  · simp only [Except.ok.injEq, Prod.mk.injEq, Option.some.injEq] at h
    obtain ⟨rfl, rfl⟩ := h
    unfold last_addr at hguard
    omega

/-- Witness for C10: the fresh-state allocation of 16 bytes. -/
theorem c10_alloc_first_page_bound_witness :
    BASE + HEADER_SIZE + 16 ≤ BASE + PAGE_SIZE :=
  c10_alloc_first_page_bound 1 initSt 16 1 (BASE + HEADER_SIZE) initSt
    (alloc_fresh 0 16 1 (by decide) (by decide))

end Yerba
